import Mathlib

/-!
# Suggestion popup controller (`src/autocomplete.cpp`)

A shallow embedding of the `AutoComplete` controller: the controller's own
members, the parts of the widgets it reads and writes (popup list, input
field, debounce timer) and the calls it makes on its collaborators, which are
recorded in an append-only log.  Every member function of the class becomes a
pure function on `State`.

Conventions.
* `QString::isEmpty()` is equality with `""`.
* Pixel measures are C++ `int`, held in `Int`.  The arithmetic the
  controller does on them itself (lines 166 and 175-177) is done as the
  machine does it: sums and products wrap to 32 bits (`wrapInt`), and the
  conversion of a `double` to `int` truncates (`truncTimes2_5`).
  `mapToGlobal` belongs to the toolkit; it is taken to move the global
  position of the field down by the given offset.
* The toolkit's own metrics (`fontInfo().pixelSize()`, `frameWidth()`,
  `sizeHintForRow`) are not defined in the repository and are taken as the
  parameter `Toolkit`.
-/

namespace AutoComplete

/-! ## Data model -/

/-- One suggestion of a batch: the fill text and the category tag. -/
structure Suggestion where
  value : String
  type : String
deriving DecidableEq

/-- A row of the popup (`QListWidgetItem`): its text, the height of its size
hint and the resource path of its icon, if it has one. -/
structure Item where
  text : String
  sizeHintHeight : Int
  icon : Option String
deriving DecidableEq

/-- The popup list (`QListWidget`) as far as the controller uses it. -/
structure Popup where
  /-- Value of `isHidden()` -/
  hidden : Bool
  /-- The rows, in order -/
  items : List Item
  /-- The current (highlighted) row, `none` for an invalid index -/
  current : Option Nat
  /-- The selected row (single selection mode) -/
  selected : Option Nat
  /-- Width and height of the popup -/
  size : Int × Int
  /-- Global position of the top-left corner -/
  pos : Int × Int
deriving DecidableEq

/-- The input field owner (`buddy` and its `toWidget()`). -/
structure Buddy where
  text : String
  hasFocus : Bool
  isVisible : Bool
  width : Int
  height : Int
  /-- Value of `mapToGlobal(QPoint(0, 0))` -/
  globalPos : Int × Int
deriving DecidableEq

/-- Keys the event filter tells apart; `Key_Other` is every remaining key. -/
inductive Key
  | Key_Enter | Key_Return | Key_Escape | Key_Up
  | Key_Down | Key_Home | Key_End | Key_PageUp | Key_PageDown
  | Key_Other
deriving DecidableEq

/-- Calls the controller makes on its collaborators, in the order made. -/
inductive Signal
  /-- Signal `suggestionAccepted(Suggestion*)` -/
  | suggestionAccepted (s : Suggestion)
  /-- Signal `suggestionAccepted(QString)` -/
  | suggestionAcceptedText (value : String)
  /-- Call `suggester->suggest(query)` on the attached provider -/
  | suggest (provider : Nat) (query : String)
  /-- Call `lineEdit->event(ev)` for a key press -/
  | lineEditEvent (key : Key)
deriving DecidableEq

/-- Event types the filter tells apart.  A key press carries the key and what
the line edit would make of it: `some t` when handling the key edits the
field to `t`, `none` when the key leaves the text alone. -/
inductive QEvent
  | Move | Resize | Leave | FocusOut | MouseButtonPress
  | KeyPress (key : Key) (edit : Option String)
  | Other
deriving DecidableEq

/-- Objects the filter is installed on. -/
inductive Obj
  | popup | window
deriving DecidableEq

/-- Metrics of the host toolkit used when the popup is laid out. -/
structure Toolkit where
  /-- Value of `popup->fontInfo().pixelSize()` -/
  pixelSize : Int
  /-- Value of `popup->frameWidth()` -/
  frameWidth : Int
  /-- Value of `popup->sizeHintForRow(i)` for the rows currently in the popup -/
  sizeHintForRow : List Item → Nat → Int

/-- Controller state: the members of `AutoComplete`, the widgets it owns or
drives, and the log of outward calls. -/
structure State where
  enabled : Bool
  /-- The attached provider, `none` for `nullptr` -/
  suggester : Option Nat
  itemHovering : Bool
  originalText : String
  /-- The stored batch -/
  suggestions : List Suggestion
  popup : Popup
  buddy : Buddy
  /-- The 500 ms single-shot debounce timer is running -/
  timerActive : Bool
  /-- Pending `QTimer::singleShot(100, …, enableItemHovering)` shots -/
  hoverShots : Nat
  /-- Outward calls made so far, oldest first -/
  signals : List Signal
deriving DecidableEq

/-! ## Widget primitives -/

/-- Value of `popup->currentIndex().row()` and `popup->currentRow()`: `-1` when there is
no current row. -/
def Popup.currentRow (p : Popup) : Int :=
  match p.current with
  | some i => (i : Int)
  | none => -1

/-- Value of `popup->currentItem()`: the row at the current index, `none` for
`nullptr`. -/
def Popup.currentItem (p : Popup) : Option Item :=
  p.current.bind fun i => p.items[i]?

/-- Call `popup->hide()` -/
def Popup.hide (p : Popup) : Popup := { p with hidden := true }

/-- Call `popup->showNormal()` -/
def Popup.showNormal (p : Popup) : Popup := { p with hidden := false }

/-- Call `popup->clear()`: all rows go, and with them current row and
selection.  The list raises `currentItemChanged(nullptr, …)`, on which the
slot of the controller returns at once. -/
def Popup.clear (p : Popup) : Popup :=
  { p with items := [], current := none, selected := none }

/-- Call `popup->clearSelection()` -/
def Popup.clearSelection (p : Popup) : Popup := { p with selected := none }

/-- Statement `new QListWidgetItem(popup)` followed by the setters: appends a row. -/
def Popup.addItem (p : Popup) (it : Item) : Popup :=
  { p with items := p.items ++ [it] }

/-- Call `popup->resize(w, h)` -/
def Popup.resize (p : Popup) (w h : Int) : Popup := { p with size := (w, h) }

/-- Call `popup->move(pt)` -/
def Popup.move (p : Popup) (pt : Int × Int) : Popup := { p with pos := pt }

/-- Call `buddy->setText(t)`: a programmatic change, which does not raise
`textEdited`. -/
def setText (s : State) (t : String) : State :=
  { s with buddy := { s.buddy with text := t } }

/-- Call `buddy->toWidget()->setFocus()` -/
def setFocus (s : State) : State :=
  { s with buddy := { s.buddy with hasFocus := true } }

/-- Call `timer->start()`, also a restart of the running timer -/
def timerStart (s : State) : State := { s with timerActive := true }

/-- Call `timer->stop()` -/
def timerStop (s : State) : State := { s with timerActive := false }

/-! ## Member functions -/

/-- Slot `currentItemChanged(QListWidgetItem *item)` (lines 274-278). -/
def currentItemChanged (s : State) (item : Option Item) : State :=
  match item with
  | none => s
  | some it => setText s it.text

/-- Call `popup->setCurrentItem(item)` with the row of the item (`none` for
`nullptr`): in single selection mode the selection follows the current row,
and `currentItemChanged` is raised when the current row changes, which runs
the slot above. -/
def setCurrentItem (s : State) (row : Option Nat) : State :=
  let changed := decide (s.popup.current ≠ row)
  let s1 := { s with popup := { s.popup with current := row, selected := row } }
  if changed then
    currentItemChanged s1 s1.popup.currentItem
  else s1

/-- Member `AutoComplete::adjustPosition` (lines 243-245). -/
def adjustPosition (s : State) : State :=
  { s with popup :=
      s.popup.move (s.buddy.globalPos.1, s.buddy.globalPos.2 + s.buddy.height) }

/-- Member `AutoComplete::enableItemHovering` (lines 247-249). -/
def enableItemHovering (s : State) : State := { s with itemHovering := true }

/-- Member `AutoComplete::hideSuggestions` (lines 251-265). -/
def hideSuggestions (s : State) : State :=
  let s := { s with itemHovering := false }
  let s := { s with popup := s.popup.hide }
  let s := { s with popup := s.popup.clear }
  let s := if s.originalText ≠ "" then
      { setText s s.originalText with originalText := "" }
    else s
  let s := setFocus s
  timerStop s

/-- A C++ `int` result: the value wrapped to 32 bits, two's complement. -/
def wrapInt (x : Int) : Int :=
  (x + 2147483648) % 4294967296 - 2147483648

/-- The conversion `int itemHeight = pixelSize * 2.5` (line 166).  The product
is a `double` and is exact for every `int`; the conversion truncates towards
zero.  A product outside the range of `int` has no defined conversion in C++;
the value taken is the one the x86-64 conversion gives, `INT_MIN`. -/
def truncTimes2_5 (pixelSize : Int) : Int :=
  let t := Int.tdiv (pixelSize * 5) 2
  if -2147483648 ≤ t ∧ t ≤ 2147483647 then t else -2147483648

/-- The row built for a suggestion in the loop of `showSuggestions`. -/
def mkItem (itemHeight : Int) (sg : Suggestion) : Item :=
  { text := sg.value
    sizeHintHeight := itemHeight
    icon := if sg.type ≠ "" then some (":/images/item/" ++ sg.type ++ ".png") else none }

/-- Member `AutoComplete::showSuggestions` (lines 158-188). -/
def showSuggestions (tk : Toolkit) (s : State) (suggestions : List Suggestion) : State :=
  if suggestions.isEmpty then hideSuggestions s
  else
    let s := { s with popup := s.popup.clear }
    let itemHeight : Int := truncTimes2_5 tk.pixelSize
    let s := suggestions.foldl
      (fun s sg => { s with popup := s.popup.addItem (mkItem itemHeight sg) }) s
    let s := setCurrentItem s none
    let h := (List.range suggestions.length).foldl
      (fun h i => wrapInt (h + tk.sizeHintForRow s.popup.items i))
      (wrapInt (tk.frameWidth * 2))
    let s := { s with popup := s.popup.resize s.buddy.width h }
    let s := adjustPosition s
    if s.popup.hidden then
      let s := { s with itemHovering := false }
      let s := { s with popup := s.popup.showNormal }
      { s with hoverShots := s.hoverShots + 1 }
    else s

/-- Member `AutoComplete::acceptSuggestion` (lines 190-201). -/
def acceptSuggestion (s : State) : State :=
  let index : Int := s.popup.currentRow
  if h : 0 ≤ index ∧ index < (s.suggestions.length : Int) then
    have hb : index.toNat < s.suggestions.length := by omega
    let suggestion := s.suggestions[index.toNat]
    let s := setText s suggestion.value
    let s := { s with signals := s.signals ++ [Signal.suggestionAccepted suggestion] }
    let s := { s with signals := s.signals ++ [Signal.suggestionAcceptedText suggestion.value] }
    let s := { s with originalText := "" }
    hideSuggestions s
  else s

/-- Member `AutoComplete::preventSuggest` (lines 203-207). -/
def preventSuggest (s : State) : State :=
  let s := timerStop s
  let s := { s with enabled := false }
  { s with popup := s.popup.hide }

/-- Member `AutoComplete::enableSuggest` (lines 209-211). -/
def enableSuggest (s : State) : State := { s with enabled := true }

/-- Member `AutoComplete::setSuggester` (lines 213-218): the previous provider is
disconnected and the new one is the only one whose replies are delivered. -/
def setSuggester (s : State) (suggester : Nat) : State :=
  { s with suggester := some suggester }

/-- Member `AutoComplete::suggest` (lines 220-233). -/
def suggest (s : State) : State :=
  if !s.enabled then s
  else
    let s := setCurrentItem s none
    let s := { s with popup := s.popup.clearSelection }
    let s := { s with originalText := s.buddy.text }
    if s.originalText = "" then hideSuggestions s
    else
      match s.suggester with
      | some p => { s with signals := s.signals ++ [Signal.suggest p s.originalText] }
      | none => s

/-- Member `AutoComplete::suggestionsReady` (lines 235-241). -/
def suggestionsReady (tk : Toolkit) (s : State) (suggestions : List Suggestion) : State :=
  let s := { s with suggestions := suggestions }
  if !s.enabled then s
  else if !s.buddy.hasFocus && s.buddy.isVisible then s
  else showSuggestions tk s suggestions

/-- Member `AutoComplete::itemEntered` (lines 267-272); the item is given by its row,
`none` for `nullptr`. -/
def itemEntered (s : State) (item : Option Nat) : State :=
  if !s.itemHovering then s
  else
    match item with
    | none => s
    | some i =>
      let s := { s with popup := { s.popup with selected := some i } }
      setCurrentItem s (some i)

/-- The user edits the field to `t`: the field holds `t` and raises
`textEdited`, which is connected to `timer->start()` (line 76). -/
def textEdited (s : State) (t : String) : State :=
  timerStart { s with buddy := { s.buddy with text := t } }

/-- Call `lineEdit->event(ev)` for a key press: the call is logged; when the key
edits the text, that is an edit by the user. -/
def lineEditEvent (s : State) (key : Key) (edit : Option String) : State :=
  let s := { s with signals := s.signals ++ [Signal.lineEditEvent key] }
  match edit with
  | some t => textEdited s t
  | none => s

/-- Member `AutoComplete::eventFilter` (lines 79-156): the state afterwards and
whether the event is consumed. -/
def eventFilter (s : State) (obj : Obj) (ev : QEvent) : State × Bool :=
  if obj ≠ Obj.popup then
    match ev with
    | QEvent.Move => (adjustPosition s, false)
    | QEvent.Resize => (adjustPosition s, false)
    | _ => (s, false)
  else
    match ev with
    | QEvent.Leave =>
      let s := setCurrentItem s none
      let s := { s with popup := s.popup.clearSelection }
      let s := if s.originalText ≠ "" then setText s s.originalText else s
      (s, true)
    | QEvent.FocusOut => (hideSuggestions s, true)
    | QEvent.MouseButtonPress => (hideSuggestions s, true)
    | QEvent.KeyPress key edit =>
      match key with
      | Key.Key_Enter | Key.Key_Return =>
        if s.popup.currentItem.isSome then (acceptSuggestion s, true)
        else (hideSuggestions (lineEditEvent s key edit), false)
      | Key.Key_Escape => (hideSuggestions s, true)
      | Key.Key_Up =>
        if s.popup.currentRow = 0 then
          let s := setCurrentItem s none
          let s := { s with popup := s.popup.clearSelection }
          let s := setText s s.originalText
          let s := setFocus s
          (s, true)
        else (s, false)
      | Key.Key_Down | Key.Key_Home | Key.Key_End | Key.Key_PageUp | Key.Key_PageDown =>
        (s, false)
      | Key.Key_Other => (lineEditEvent s key edit, true)
    | _ => (s, false)

/-! ## The controller in its environment

Everything that can happen to the controller between two returns to the event
loop.  What the toolkit does on its own (moving the current row on a key the
filter did not consume, a click on a row, focus changes) appears as events of
its own. -/

/-- Events of the environment. -/
inductive Event
  /-- The user edits the field to `t` -/
  | textEdited (t : String)
  /-- The debounce timer elapses (`timeout()` is connected to `suggest()`) -/
  | timeout
  /-- Provider `provider` raises `ready(batch)` -/
  | ready (provider : Nat) (batch : List Suggestion)
  /-- An event for `obj` passes through `eventFilter` -/
  | filtered (obj : Obj) (ev : QEvent)
  /-- The list moves its current row to `i` (keyboard navigation) -/
  | currentRow (i : Nat)
  /-- The mouse enters row `i` (`itemEntered`) -/
  | itemEntered (i : Nat)
  /-- Row `i` is clicked: it becomes current, then `itemClicked` runs
  `acceptSuggestion()` (line 67) -/
  | itemClicked (i : Nat)
  /-- A pending hover-arming single shot elapses -/
  | hoverShot
  /-- The application calls `preventSuggest()` -/
  | preventSuggest
  /-- The application calls `enableSuggest()` -/
  | enableSuggest
  /-- The application calls `setSuggester(provider)` -/
  | setSuggester (provider : Nat)
  /-- The field gains or loses keyboard focus -/
  | focusChanged (hasFocus : Bool)
  /-- The field is shown or hidden -/
  | visibleChanged (isVisible : Bool)
  /-- The field is moved or resized -/
  | geometryChanged (width height : Int) (globalPos : Int × Int)
deriving DecidableEq

/-- State after the constructor (lines 51-77): enabled, no provider, hover
disarmed, a hidden empty popup and a stopped timer. -/
def init (buddy : Buddy) (popupSize popupPos : Int × Int) : State :=
  { enabled := true
    suggester := none
    itemHovering := false
    originalText := ""
    suggestions := []
    popup := { hidden := true, items := [], current := none, selected := none,
               size := popupSize, pos := popupPos }
    buddy := buddy
    timerActive := false
    hoverShots := 0
    signals := [] }

/-- One event.  The timer fires only while it runs, a reply is delivered only
from the connected provider, and row events name an existing row. -/
def step (tk : Toolkit) (s : State) : Event → State
  | Event.textEdited t => textEdited s t
  | Event.timeout => if s.timerActive then suggest (timerStop s) else s
  | Event.ready p batch =>
    if s.suggester = some p then suggestionsReady tk s batch else s
  | Event.filtered obj ev => (eventFilter s obj ev).1
  | Event.currentRow i =>
    if i < s.popup.items.length then setCurrentItem s (some i) else s
  | Event.itemEntered i =>
    if i < s.popup.items.length then itemEntered s (some i) else s
  | Event.itemClicked i =>
    if i < s.popup.items.length then acceptSuggestion (setCurrentItem s (some i)) else s
  | Event.hoverShot =>
    if 0 < s.hoverShots then
      enableItemHovering { s with hoverShots := s.hoverShots - 1 }
    else s
  | Event.preventSuggest => preventSuggest s
  | Event.enableSuggest => enableSuggest s
  | Event.setSuggester p => setSuggester s p
  | Event.focusChanged b => { s with buddy := { s.buddy with hasFocus := b } }
  | Event.visibleChanged b => { s with buddy := { s.buddy with isVisible := b } }
  | Event.geometryChanged w h pos =>
    { s with buddy := { s.buddy with width := w, height := h, globalPos := pos } }

/-- A sequence of events, oldest first. -/
def run (tk : Toolkit) (s : State) (evs : List Event) : State :=
  evs.foldl (step tk) s

/-- Queries issued so far: provider and text, oldest first. -/
def queries (s : State) : List (Nat × String) :=
  s.signals.filterMap fun sig =>
    match sig with
    | Signal.suggest p q => some (p, q)
    | _ => none

/-- Whether the event is an edit of the field by the user: a direct edit, or
a key press that the line edit turns into an edit. -/
def isTextEdit : Event → Bool
  | Event.textEdited _ => true
  | Event.filtered _ (QEvent.KeyPress _ (some _)) => true
  | _ => false

/-! ## Sample data -/

/-- A focused, visible field holding no text. -/
def buddy0 : Buddy :=
  { text := "", hasFocus := true, isVisible := true, width := 200, height := 24,
    globalPos := (10, 10) }

/-- A toolkit whose row height hint is the size hint of the row. -/
def tk0 : Toolkit :=
  { pixelSize := 12
    frameWidth := 1
    sizeHintForRow := fun items i => ((items[i]?).map Item.sizeHintHeight).getD 0 }

/-- The controller right after construction around `buddy0`. -/
def s0 : State := init buddy0 (0, 0) (0, 0)

/-- The batch of the scenario in the specification. -/
def batchCat : List Suggestion :=
  [{ value := "cats", type := "channel" }, { value := "category", type := "" }]

/-- A later reply of the provider. -/
def batchCar : List Suggestion :=
  [{ value := "car", type := "" }, { value := "carpet", type := "video" }]

/-- The user types "cat" and the debounce interval elapses. -/
def sQueried : State :=
  run tk0 s0 [Event.setSuggester 0, Event.textEdited "cat", Event.timeout]

/-- The reply to "cat" is shown and the user moves to the first row. -/
def sPreview : State :=
  run tk0 sQueried [Event.ready 0 batchCat, Event.currentRow 0]

/-- The user types "c", pauses, types "ca", pauses: two queries are in flight. -/
def sInFlight : State :=
  run tk0 s0 [Event.setSuggester 0, Event.textEdited "c", Event.timeout,
    Event.textEdited "ca", Event.timeout]

/-- The first reply opens the popup, Escape closes it, the second reply opens
it again. -/
def sReopened : State :=
  run tk0 sInFlight [Event.ready 0 batchCat,
    Event.filtered Obj.popup (QEvent.KeyPress Key.Key_Escape none), Event.ready 0 batchCar]

/-- The first reply is shown and its second row highlighted; the field loses
focus; the second reply arrives. -/
def sStale : State :=
  run tk0 sInFlight [Event.ready 0 batchCat, Event.currentRow 1, Event.focusChanged false,
    Event.ready 0 batchCar]

/-- The first reply is shown and its second row highlighted; the application
pauses the controller; the second reply arrives. -/
def sStalePaused : State :=
  run tk0 sInFlight [Event.ready 0 batchCat, Event.currentRow 1, Event.preventSuggest,
    Event.ready 0 batchCar]

/-- After the query for "cat" the field loses focus and is hidden. -/
def sFieldHidden : State :=
  run tk0 sQueried [Event.focusChanged false, Event.visibleChanged false]

/-- The user has typed "a" and the debounce interval has not elapsed. -/
def sTyping : State := run tk0 s0 [Event.textEdited "a"]

/-- Whether some `enableSuggest` in the sequence is followed by an edit of the
field. -/
def editAfterEnable : List Event → Bool
  | [] => false
  | e :: rest =>
    (decide (e = Event.enableSuggest) && rest.any isTextEdit) || editAfterEnable rest

/-- What every operation leaves alone apart from `enableSuggest`,
`preventSuggest` and `suggest`: the enabled flag and the queries issued so
far stay, and original text is either kept or cleared. -/
def Frame (s t : State) : Prop :=
  t.enabled = s.enabled ∧ queries t = queries s ∧
    (t.originalText = s.originalText ∨ t.originalText = "")

/-- The operation does not start the debounce timer. -/
def TimerMono (s t : State) : Prop :=
  t.timerActive = true → s.timerActive = true

/-! ## Auxiliary lemmas -/

/-- The row-building loop of `showSuggestions` appends one row per suggestion. -/
theorem foldl_addItem (ih : Int) (l : List Suggestion) (s : State) :
    l.foldl (fun s sg => { s with popup := s.popup.addItem (mkItem ih sg) }) s =
      { s with popup := { s.popup with items := s.popup.items ++ l.map (mkItem ih) } } := by
  induction l generalizing s with
  | nil => simp
  | cons a l ihl =>
    simp only [List.foldl_cons, List.map_cons]
    rw [ihl]
    simp [Popup.addItem]

/-- Wrapping an intermediate result does not change the wrapped sum. -/
theorem wrapInt_add (x y : Int) : wrapInt (wrapInt x + y) = wrapInt (x + y) := by
  unfold wrapInt
  omega

/-- A value within the range of `int` is its own wrapping. -/
theorem wrapInt_of_range (x : Int) (h₁ : -2147483648 ≤ x) (h₂ : x ≤ 2147483647) :
    wrapInt x = x := by
  unfold wrapInt
  omega

/-- The height loop of `showSuggestions` yields the wrapped sum of its start
value and the row hints. -/
theorem foldl_range_wrap (f : Nat → Int) (a : Int) (n : Nat) :
    (List.range n).foldl (fun h i => wrapInt (h + f i)) (wrapInt a) =
      wrapInt (a + ((List.range n).map f).sum) := by
  induction n with
  | zero => simp
  | succ n ih =>
    simp only [List.range_succ, List.foldl_append, List.foldl_cons, List.foldl_nil, ih,
      List.map_append, List.map_cons, List.map_nil, List.sum_append, List.sum_cons,
      List.sum_nil, add_zero]
    rw [wrapInt_add, add_assoc]

/-- The popup after `showSuggestions` on a non-empty batch. -/
theorem showSuggestions_popup (tk : Toolkit) (s : State) (batch : List Suggestion)
    (h : batch ≠ []) :
    (showSuggestions tk s batch).popup =
      { hidden := false
        items := batch.map (mkItem (truncTimes2_5 tk.pixelSize))
        current := none
        selected := none
        size := (s.buddy.width, wrapInt (tk.frameWidth * 2 +
          ((List.range batch.length).map
            (tk.sizeHintForRow (batch.map (mkItem (truncTimes2_5 tk.pixelSize))))).sum))
        pos := (s.buddy.globalPos.1, s.buddy.globalPos.2 + s.buddy.height) } := by
  have hne : batch.isEmpty = false := by
    cases batch with
    | nil => exact absurd rfl h
    | cons a l => rfl
  simp only [showSuggestions, hne, foldl_addItem, foldl_range_wrap]
  simp [setCurrentItem, currentItemChanged, Popup.currentItem, Popup.clear, adjustPosition, Popup.resize,
    Popup.move, Popup.showNormal]
  split
  · simp
  · simp_all

/-- Doing nothing is within the frame. -/
theorem frame_refl (s : State) : Frame s s := ⟨rfl, rfl, Or.inl rfl⟩

/-- Frames compose. -/
theorem frame_trans {s t u : State} (h₁ : Frame s t) (h₂ : Frame t u) : Frame s u := by
  obtain ⟨a₁, b₁, c₁⟩ := h₁
  obtain ⟨a₂, b₂, c₂⟩ := h₂
  refine ⟨a₂.trans a₁, b₂.trans b₁, ?_⟩
  rcases c₂ with c₂ | c₂
  · rcases c₁ with c₁ | c₁
    · exact Or.inl (c₂.trans c₁)
    · exact Or.inr (c₂.trans c₁)
  · exact Or.inr c₂

/-- Doing nothing does not start the timer. -/
theorem timer_refl (s : State) : TimerMono s s := fun h => h

/-- Operations that do not start the timer compose. -/
theorem timer_trans {s t u : State} (h₁ : TimerMono s t) (h₂ : TimerMono t u) :
    TimerMono s u := fun h => h₁ (h₂ h)

/-- Frame of `hideSuggestions`. -/
theorem frame_hideSuggestions (s : State) : Frame s (hideSuggestions s) := by
  refine ⟨?_, ?_, Or.inr ?_⟩ <;>
    by_cases ho : s.originalText = "" <;>
    simp [hideSuggestions, setText, setFocus, timerStop, Popup.hide, Popup.clear, queries, ho]

/-- The timer is stopped after `hideSuggestions`. -/
theorem timer_hideSuggestions (s : State) : (hideSuggestions s).timerActive = false := by
  simp [hideSuggestions, timerStop]

/-- Frame of `setCurrentItem`. -/
theorem frame_setCurrentItem (s : State) (row : Option Nat) :
    Frame s (setCurrentItem s row) := by
  unfold setCurrentItem currentItemChanged
  refine ⟨?_, ?_, Or.inl ?_⟩ <;> (simp only []; split <;> [split; skip]) <;> simp [setText, queries]

/-- The timer is untouched by `setCurrentItem`. -/
theorem timer_setCurrentItem (s : State) (row : Option Nat) :
    (setCurrentItem s row).timerActive = s.timerActive := by
  unfold setCurrentItem currentItemChanged
  simp only []
  split <;> [split; skip] <;> simp [setText]

/-- Frame of `acceptSuggestion`. -/
theorem frame_acceptSuggestion (s : State) : Frame s (acceptSuggestion s) := by
  unfold acceptSuggestion
  simp only []
  split
  · refine frame_trans ?_ (frame_hideSuggestions _)
    refine ⟨?_, ?_, Or.inr ?_⟩ <;> simp [setText, queries, List.filterMap_append]
  · exact frame_refl s

/-- The timer is not started by `acceptSuggestion`. -/
theorem timer_acceptSuggestion (s : State) : TimerMono s (acceptSuggestion s) := by
  unfold acceptSuggestion
  simp only []
  split
  · intro h
    rw [timer_hideSuggestions] at h
    cases h
  · exact timer_refl s

/-- Outside the popup, `showSuggestions` on a non-empty batch only touches hover arming. -/
theorem showSuggestions_eq (tk : Toolkit) (s : State) (batch : List Suggestion)
    (h : batch ≠ []) :
    showSuggestions tk s batch =
      { s with
        popup := (showSuggestions tk s batch).popup
        itemHovering := if s.popup.hidden then false else s.itemHovering
        hoverShots := if s.popup.hidden then s.hoverShots + 1 else s.hoverShots } := by
  have hne : batch.isEmpty = false := by
    cases batch with
    | nil => exact absurd rfl h
    | cons a l => rfl
  simp only [showSuggestions, hne, foldl_addItem, foldl_range_wrap]
  simp [setCurrentItem, currentItemChanged, Popup.currentItem, Popup.clear, adjustPosition, Popup.resize,
    Popup.move, Popup.showNormal]
  split <;> simp_all

/-- Frame of `showSuggestions`. -/
theorem frame_showSuggestions (tk : Toolkit) (s : State) (batch : List Suggestion) :
    Frame s (showSuggestions tk s batch) := by
  by_cases h : batch = []
  · subst h
    simpa [showSuggestions] using frame_hideSuggestions s
  · rw [showSuggestions_eq tk s batch h]
    exact ⟨rfl, rfl, Or.inl rfl⟩

/-- The timer is not started by `showSuggestions`. -/
theorem timer_showSuggestions (tk : Toolkit) (s : State) (batch : List Suggestion) :
    TimerMono s (showSuggestions tk s batch) := by
  by_cases h : batch = []
  · subst h
    intro ht
    simp [showSuggestions, timer_hideSuggestions] at ht
  · rw [showSuggestions_eq tk s batch h]
    exact fun ht => ht

/-- Frame of `suggestionsReady`. -/
theorem frame_suggestionsReady (tk : Toolkit) (s : State) (batch : List Suggestion) :
    Frame s (suggestionsReady tk s batch) := by
  have h0 : Frame s { s with suggestions := batch } := ⟨rfl, rfl, Or.inl rfl⟩
  unfold suggestionsReady
  simp only []
  split
  · exact h0
  · split
    · exact h0
    · exact frame_trans h0 (frame_showSuggestions tk _ batch)

/-- The timer is not started by `suggestionsReady`. -/
theorem timer_suggestionsReady (tk : Toolkit) (s : State) (batch : List Suggestion) :
    TimerMono s (suggestionsReady tk s batch) := by
  have h0 : TimerMono s { s with suggestions := batch } := fun h => h
  unfold suggestionsReady
  simp only []
  split
  · exact h0
  · split
    · exact h0
    · exact timer_trans h0 (timer_showSuggestions tk _ batch)

/-- Frame of `itemEntered`. -/
theorem frame_itemEntered (s : State) (item : Option Nat) : Frame s (itemEntered s item) := by
  unfold itemEntered
  split
  · exact frame_refl s
  · split
    · exact frame_refl s
    · exact frame_trans ⟨rfl, rfl, Or.inl rfl⟩ (frame_setCurrentItem _ _)

/-- The timer is untouched by `itemEntered`. -/
theorem timer_itemEntered (s : State) (item : Option Nat) :
    (itemEntered s item).timerActive = s.timerActive := by
  unfold itemEntered
  split
  · rfl
  · split
    · rfl
    · simp [timer_setCurrentItem]

/-- Frame of a key press forwarded to the line edit. -/
theorem frame_lineEditEvent (s : State) (key : Key) (edit : Option String) :
    Frame s (lineEditEvent s key edit) := by
  cases edit <;>
    exact ⟨by simp [lineEditEvent, textEdited, timerStart],
      by simp [lineEditEvent, textEdited, timerStart, queries, List.filterMap_append],
      Or.inl (by simp [lineEditEvent, textEdited, timerStart])⟩

/-- Frame of `eventFilter`. -/
theorem frame_eventFilter (s : State) (obj : Obj) (ev : QEvent) :
    Frame s (eventFilter s obj ev).1 := by
  have hleave : ∀ u : State, Frame u
      (if u.originalText ≠ "" then setText u u.originalText else u) := by
    intro u
    split
    · exact ⟨rfl, rfl, Or.inl rfl⟩
    · exact frame_refl u
  have hclear : ∀ u : State, Frame u { u with popup := u.popup.clearSelection } :=
    fun u => ⟨rfl, rfl, Or.inl rfl⟩
  cases obj with
  | window =>
    cases ev <;> simp [eventFilter, adjustPosition] <;> exact frame_refl s
  | popup =>
    cases ev with
    | Move => exact frame_refl s
    | Resize => exact frame_refl s
    | Other => exact frame_refl s
    | Leave =>
      exact frame_trans (frame_trans (frame_setCurrentItem s none) (hclear _)) (hleave _)
    | FocusOut => exact frame_hideSuggestions s
    | MouseButtonPress => exact frame_hideSuggestions s
    | KeyPress key edit =>
      cases key <;> simp only [eventFilter, ne_eq, not_true_eq_false, ↓reduceIte]
      case Key_Enter | Key_Return =>
        split
        · exact frame_acceptSuggestion s
        · exact frame_trans (frame_lineEditEvent s _ edit) (frame_hideSuggestions _)
      case Key_Escape => exact frame_hideSuggestions s
      case Key_Up =>
        split
        · exact frame_trans (frame_trans (frame_setCurrentItem s none) (hclear _))
            ⟨rfl, rfl, Or.inl rfl⟩
        · exact frame_refl s
      case Key_Other => exact frame_lineEditEvent s _ edit
      all_goals exact frame_refl s

/-- A forwarded key that edits nothing leaves the timer alone. -/
theorem timer_lineEditEvent (s : State) (key : Key) :
    (lineEditEvent s key none).timerActive = s.timerActive := by
  simp [lineEditEvent]

/-- Events that edit nothing do not start the timer in `eventFilter`. -/
theorem timer_eventFilter (s : State) (obj : Obj) (ev : QEvent)
    (h : isTextEdit (Event.filtered obj ev) = false) :
    TimerMono s (eventFilter s obj ev).1 := by
  have hstop : ∀ u : State, TimerMono s (hideSuggestions u) := by
    intro u ht
    rw [timer_hideSuggestions] at ht
    cases ht
  cases obj with
  | window =>
    cases ev <;> simp [eventFilter, adjustPosition] <;> exact timer_refl s
  | popup =>
    cases ev with
    | Move => exact timer_refl s
    | Resize => exact timer_refl s
    | Other => exact timer_refl s
    | Leave =>
      intro ht
      simp only [eventFilter, ne_eq, not_true_eq_false, ↓reduceIte] at ht
      split at ht <;> simpa [setText, Popup.clearSelection, timer_setCurrentItem] using ht
    | FocusOut => exact hstop s
    | MouseButtonPress => exact hstop s
    | KeyPress key edit =>
      cases edit with
      | some t => simp [isTextEdit] at h
      | none =>
        cases key <;> simp only [eventFilter, ne_eq, not_true_eq_false, ↓reduceIte]
        case Key_Enter | Key_Return =>
          split
          · exact timer_acceptSuggestion s
          · exact hstop _
        case Key_Escape => exact hstop s
        case Key_Up =>
          split
          · intro ht
            simpa [setFocus, setText, Popup.clearSelection, timer_setCurrentItem] using ht
          · exact timer_refl s
        case Key_Other =>
          intro ht
          rwa [timer_lineEditEvent] at ht
        all_goals exact timer_refl s

/-- A disabled controller ignores `suggest`. -/
theorem frame_suggest_paused (s : State) (h : s.enabled = false) : suggest s = s := by
  simp [suggest, h]

/-- An enabled `suggest` captures the field text as original text. -/
theorem suggest_originalText (s : State) (h : s.enabled = true) :
    (suggest s).originalText = s.buddy.text := by
  have h1 : (setCurrentItem s none).buddy.text = s.buddy.text := by
    simp [setCurrentItem, currentItemChanged, Popup.currentItem]
  by_cases ht : s.buddy.text = ""
  · simp [suggest, h, h1, ht, hideSuggestions, setFocus, timerStop]
  · simp only [suggest, h, h1, ht]
    simp
    split <;> simp [h1]

/-- While the controller is disabled, every event other than `enableSuggest`
keeps it disabled and issues no query. -/
theorem step_paused (tk : Toolkit) (s : State) (e : Event) (hs : s.enabled = false)
    (he : e ≠ Event.enableSuggest) :
    (step tk s e).enabled = false ∧ queries (step tk s e) = queries s := by
  have of_frame : ∀ t : State, Frame s t → t.enabled = false ∧ queries t = queries s :=
    fun t h => ⟨h.1.trans hs, h.2.1⟩
  cases e with
  | enableSuggest => exact absurd rfl he
  | textEdited t => exact ⟨hs, rfl⟩
  | timeout =>
    simp only [step]
    split
    · rw [frame_suggest_paused _ (by simpa [timerStop] using hs)]
      exact ⟨hs, rfl⟩
    · exact ⟨hs, rfl⟩
  | ready p batch =>
    simp only [step]
    split
    · exact of_frame _ (frame_suggestionsReady tk s batch)
    · exact ⟨hs, rfl⟩
  | filtered obj ev => exact of_frame _ (frame_eventFilter s obj ev)
  | currentRow i =>
    simp only [step]
    split
    · exact of_frame _ (frame_setCurrentItem s _)
    · exact ⟨hs, rfl⟩
  | itemEntered i =>
    simp only [step]
    split
    · exact of_frame _ (frame_itemEntered s _)
    · exact ⟨hs, rfl⟩
  | itemClicked i =>
    simp only [step]
    split
    · exact of_frame _ (frame_trans (frame_setCurrentItem s _) (frame_acceptSuggestion _))
    · exact ⟨hs, rfl⟩
  | hoverShot =>
    simp only [step]
    split
    · exact ⟨hs, rfl⟩
    · exact ⟨hs, rfl⟩
  | preventSuggest => exact ⟨rfl, rfl⟩
  | setSuggester p => exact ⟨hs, rfl⟩
  | focusChanged b => exact ⟨hs, rfl⟩
  | visibleChanged b => exact ⟨hs, rfl⟩
  | geometryChanged w h pos => exact ⟨hs, rfl⟩

/-- While the debounce timer is stopped, every event that is not an edit of
the field leaves it stopped and issues no query. -/
theorem step_timer_off (tk : Toolkit) (s : State) (e : Event) (hs : s.timerActive = false)
    (he : isTextEdit e = false) :
    (step tk s e).timerActive = false ∧ queries (step tk s e) = queries s := by
  have of_mono : ∀ t : State, TimerMono s t → t.timerActive = false := by
    intro t h
    cases ht : t.timerActive
    · rfl
    · rw [h ht] at hs
      cases hs
  cases e with
  | textEdited t => simp [isTextEdit] at he
  | timeout => simp [step, hs]
  | ready p batch =>
    simp only [step]
    split
    · exact ⟨of_mono _ (timer_suggestionsReady tk s batch), (frame_suggestionsReady tk s batch).2.1⟩
    · exact ⟨hs, rfl⟩
  | filtered obj ev =>
    exact ⟨of_mono _ (timer_eventFilter s obj ev he), (frame_eventFilter s obj ev).2.1⟩
  | currentRow i =>
    simp only [step]
    split
    · exact ⟨by rw [timer_setCurrentItem, hs], (frame_setCurrentItem s _).2.1⟩
    · exact ⟨hs, rfl⟩
  | itemEntered i =>
    simp only [step]
    split
    · exact ⟨by rw [timer_itemEntered, hs], (frame_itemEntered s _).2.1⟩
    · exact ⟨hs, rfl⟩
  | itemClicked i =>
    simp only [step]
    split
    · refine ⟨of_mono _ (timer_trans ?_ (timer_acceptSuggestion _)),
        (frame_trans (frame_setCurrentItem s _) (frame_acceptSuggestion _)).2.1⟩
      intro ht
      rwa [timer_setCurrentItem] at ht
    · exact ⟨hs, rfl⟩
  | hoverShot =>
    simp only [step]
    split
    · exact ⟨hs, rfl⟩
    · exact ⟨hs, rfl⟩
  | preventSuggest => exact ⟨rfl, rfl⟩
  | enableSuggest => exact ⟨hs, rfl⟩
  | setSuggester p => exact ⟨hs, rfl⟩
  | focusChanged b => exact ⟨hs, rfl⟩
  | visibleChanged b => exact ⟨hs, rfl⟩
  | geometryChanged w h pos => exact ⟨hs, rfl⟩

/-- No query is issued before the next `enableSuggest`. -/
theorem run_paused (tk : Toolkit) (evs : List Event) (s : State) (hs : s.enabled = false)
    (he : Event.enableSuggest ∉ evs) : queries (run tk s evs) = queries s := by
  induction evs generalizing s with
  | nil => rfl
  | cons e evs ih =>
    have hstep := step_paused tk s e hs (fun h => he (by simp [h]))
    have := ih (step tk s e) hstep.1 (fun h => he (List.mem_cons_of_mem _ h))
    simpa [run, hstep.2] using this

/-- No query is issued from a stopped timer before the next edit. -/
theorem run_timer_off (tk : Toolkit) (evs : List Event) (s : State)
    (hs : s.timerActive = false) (he : ∀ e ∈ evs, isTextEdit e = false) :
    queries (run tk s evs) = queries s := by
  induction evs generalizing s with
  | nil => rfl
  | cons e evs ih =>
    have hstep := step_timer_off tk s e hs (he e (List.mem_cons_self _ _))
    have := ih (step tk s e) hstep.1 (fun x hx => he x (List.mem_cons_of_mem _ hx))
    simpa [run, hstep.2] using this

/-- Original text after one event: kept, cleared, or captured from the field
by `suggest()` on a timer expiry with the controller enabled. -/
theorem step_originalText (tk : Toolkit) (s : State) (e : Event) :
    (step tk s e).originalText = s.originalText ∨ (step tk s e).originalText = "" ∨
      (e = Event.timeout ∧ s.timerActive = true ∧ s.enabled = true ∧
        (step tk s e).originalText = s.buddy.text) := by
  have of_frame : ∀ t : State, Frame s t →
      t.originalText = s.originalText ∨ t.originalText = "" ∨
        (e = Event.timeout ∧ s.timerActive = true ∧ s.enabled = true ∧
          t.originalText = s.buddy.text) := by
    intro t h
    rcases h.2.2 with h | h
    · exact Or.inl h
    · exact Or.inr (Or.inl h)
  cases e with
  | timeout =>
    simp only [step]
    split
    · rename_i ht
      cases hen : s.enabled
      · rw [frame_suggest_paused _ (by simpa [timerStop] using hen)]
        exact Or.inl rfl
      · refine Or.inr (Or.inr ⟨trivial, ht, rfl, ?_⟩)
        rw [suggest_originalText _ (by simpa [timerStop] using hen)]
        rfl
    · exact Or.inl rfl
  | textEdited t => exact Or.inl rfl
  | ready p batch =>
    simp only [step]
    split
    · exact of_frame _ (frame_suggestionsReady tk s batch)
    · exact Or.inl rfl
  | filtered obj ev => exact of_frame _ (frame_eventFilter s obj ev)
  | currentRow i =>
    simp only [step]
    split
    · exact of_frame _ (frame_setCurrentItem s _)
    · exact Or.inl rfl
  | itemEntered i =>
    simp only [step]
    split
    · exact of_frame _ (frame_itemEntered s _)
    · exact Or.inl rfl
  | itemClicked i =>
    simp only [step]
    split
    · exact of_frame _ (frame_trans (frame_setCurrentItem s _) (frame_acceptSuggestion _))
    · exact Or.inl rfl
  | hoverShot =>
    simp only [step]
    split
    · exact Or.inl rfl
    · exact Or.inl rfl
  | preventSuggest => exact Or.inl rfl
  | enableSuggest => exact Or.inl rfl
  | setSuggester p => exact Or.inl rfl
  | focusChanged b => exact Or.inl rfl
  | visibleChanged b => exact Or.inl rfl
  | geometryChanged w h pos => exact Or.inl rfl

/-- Running a sequence extended by one event. -/
theorem run_append_singleton (tk : Toolkit) (s : State) (evs : List Event) (e : Event) :
    run tk s (evs ++ [e]) = step tk (run tk s evs) e := by
  simp [run, List.foldl_append]

/-- A non-empty original text was captured by an earlier `suggest()` and has
been kept since. -/
theorem run_originalText (tk : Toolkit) (s : State) (hs : s.originalText = "")
    (evs : List Event) (h : (run tk s evs).originalText ≠ "") :
    ∃ pre post, evs = pre ++ Event.timeout :: post ∧
      (run tk s pre).timerActive = true ∧ (run tk s pre).enabled = true ∧
      (run tk s pre).buddy.text = (run tk s evs).originalText ∧
      ∀ mid, mid <+: post →
        (run tk s (pre ++ Event.timeout :: mid)).originalText = (run tk s evs).originalText := by
  induction evs using List.reverseRecOn with
  | nil => exact absurd hs h
  | append_singleton evs e ih =>
    rw [run_append_singleton] at h ⊢
    rcases step_originalText tk (run tk s evs) e with hk | hc | ⟨he, ht, hen, htx⟩
    · rw [hk] at h
      obtain ⟨pre, post, hevs, h1, h2, h3, h4⟩ := ih h
      refine ⟨pre, post ++ [e], by simp [hevs], h1, h2, by rw [h3, hk], ?_⟩
      intro mid hmid
      rcases List.prefix_concat_iff.mp hmid with hm | hm
      · subst hm
        have : pre ++ Event.timeout :: (post ++ [e]) = evs ++ [e] := by simp [hevs]
        rw [this, run_append_singleton]
      · rw [h4 mid hm, hk]
    · exact absurd hc h
    · subst he
      refine ⟨evs, [], rfl, ht, hen, htx.symm, ?_⟩
      intro mid hmid
      have : mid = [] := List.prefix_nil.mp hmid
      subst this
      rw [run_append_singleton]

/-! ## The claims -/

/-- Claim C1. `acceptSuggestion()`: when the index of the highlighted row lies
within the stored batch, exactly two notifications are appended to the log,
first the suggestion record stored at that index and then its value; the field
then holds that value (the `hideSuggestions()` at the end does not revert it),
original text is empty, and the popup is hidden and has no rows.  When the
index lies outside the batch (no row highlighted included) the state is
unchanged, so nothing is emitted. -/
theorem acceptSuggestion_spec (s : State) :
    (∀ i : Int, s.popup.currentRow = i → 0 ≤ i → i < (s.suggestions.length : Int) →
      ∃ sg, s.suggestions[i.toNat]? = some sg ∧
        (acceptSuggestion s).signals =
          s.signals ++ [Signal.suggestionAccepted sg, Signal.suggestionAcceptedText sg.value] ∧
        (acceptSuggestion s).buddy.text = sg.value ∧
        (acceptSuggestion s).originalText = "" ∧
        (acceptSuggestion s).popup.hidden = true ∧
        (acceptSuggestion s).popup.items = []) ∧
    (¬ (0 ≤ s.popup.currentRow ∧ s.popup.currentRow < (s.suggestions.length : Int)) →
      acceptSuggestion s = s) := by
  constructor
  · intro i hi h0 hlt
    subst hi
    have hb : (s.popup.currentRow).toNat < s.suggestions.length := by omega
    refine ⟨s.suggestions[(s.popup.currentRow).toNat], List.getElem?_eq_getElem hb, ?_⟩
    simp [acceptSuggestion, h0, hlt, hideSuggestions, setText, setFocus, timerStop,
      Popup.hide, Popup.clear]
  · intro h
    simp only [acceptSuggestion]
    rw [dif_neg h]

/-- Claim C1 at sample states: the first row of the shown batch is highlighted
in `sPreview`, and no row is highlighted in `s0`. -/
theorem acceptSuggestion_spec_witness :
    (sPreview.popup.currentRow = 0 ∧ (0 : Int) ≤ 0 ∧
      (0 : Int) < (sPreview.suggestions.length : Int)) ∧
    (∃ sg, sPreview.suggestions[(0 : Int).toNat]? = some sg ∧
      (acceptSuggestion sPreview).signals =
        sPreview.signals ++
          [Signal.suggestionAccepted sg, Signal.suggestionAcceptedText sg.value] ∧
      (acceptSuggestion sPreview).buddy.text = sg.value ∧
      (acceptSuggestion sPreview).originalText = "" ∧
      (acceptSuggestion sPreview).popup.hidden = true ∧
      (acceptSuggestion sPreview).popup.items = []) ∧
    ¬ (0 ≤ s0.popup.currentRow ∧ s0.popup.currentRow < (s0.suggestions.length : Int)) ∧
    acceptSuggestion s0 = s0 :=
  ⟨⟨by decide, by decide, by decide⟩,
    (acceptSuggestion_spec sPreview).1 0 (by decide) (by decide) (by decide),
    by decide, (acceptSuggestion_spec s0).2 (by decide)⟩

/-- Claim C2 fails as stated: in `sFieldHidden` the field is hidden and lacks
focus, the popup is hidden and empty, and the delivered batch opens the popup
with two rows. -/
theorem suggestionsReady_hidden_field_counterexample :
    (sFieldHidden.buddy.hasFocus = false ∧ sFieldHidden.buddy.isVisible = false) ∧
    sFieldHidden.popup.hidden = true ∧ sFieldHidden.popup.items = [] ∧
    (suggestionsReady tk0 sFieldHidden batchCat).popup.hidden = false ∧
    (suggestionsReady tk0 sFieldHidden batchCat).popup.items.map Item.text =
      ["cats", "category"] := by
  decide

/-- Claim C2, amended. A batch delivered while the field lacks focus and is
visible leaves the popup unchanged and replaces the stored batch.  A batch
delivered to an enabled controller while the field is hidden is stored and
handed to `showSuggestions`. -/
theorem suggestionsReady_unfocused (tk : Toolkit) (s : State) (batch : List Suggestion) :
    (s.buddy.hasFocus = false → s.buddy.isVisible = true →
      (suggestionsReady tk s batch).popup = s.popup ∧
      (suggestionsReady tk s batch).suggestions = batch) ∧
    (s.enabled = true → s.buddy.isVisible = false →
      suggestionsReady tk s batch = showSuggestions tk { s with suggestions := batch } batch) := by
  constructor
  · intro hf hv
    cases he : s.enabled <;> simp [suggestionsReady, he, hf, hv]
  · intro he hv
    simp [suggestionsReady, he, hv]

/-- Claim C2, amended, at sample states: the field has lost focus after the
query, and the field has been hidden after the query. -/
theorem suggestionsReady_unfocused_witness :
    ((run tk0 sQueried [Event.focusChanged false]).buddy.hasFocus = false ∧
      (run tk0 sQueried [Event.focusChanged false]).buddy.isVisible = true) ∧
    ((suggestionsReady tk0 (run tk0 sQueried [Event.focusChanged false]) batchCat).popup =
        (run tk0 sQueried [Event.focusChanged false]).popup ∧
      (suggestionsReady tk0 (run tk0 sQueried [Event.focusChanged false]) batchCat).suggestions =
        batchCat) ∧
    (sFieldHidden.enabled = true ∧ sFieldHidden.buddy.isVisible = false) ∧
    suggestionsReady tk0 sFieldHidden batchCat =
      showSuggestions tk0 { sFieldHidden with suggestions := batchCat } batchCat :=
  ⟨⟨by decide, by decide⟩,
    (suggestionsReady_unfocused tk0 _ batchCat).1 (by decide) (by decide),
    ⟨by decide, by decide⟩,
    (suggestionsReady_unfocused tk0 sFieldHidden batchCat).2 (by decide) (by decide)⟩

/-- Claim C3 fails as stated: after `preventSuggest()`, an edit made while
paused, then `enableSuggest()`, then the timer expiry issue the query "cat",
although no edit follows the `enableSuggest()`. -/
theorem query_without_edit_after_enable_counterexample :
    editAfterEnable [Event.textEdited "cat", Event.enableSuggest, Event.timeout] = false ∧
    queries (preventSuggest (setSuggester s0 0)) = [] ∧
    queries (run tk0 (preventSuggest (setSuggester s0 0))
      [Event.textEdited "cat", Event.enableSuggest, Event.timeout]) = [(0, "cat")] := by
  decide

/-- Claim C3, amended. After `preventSuggest()`, as long as the events that
followed contain no `enableSuggest()`, or contain no edit of the field, no
query has been issued: a query needs both `enableSuggest()` and an edit made
after `preventSuggest()`, in either order. -/
theorem no_query_until_resumed_and_edited (tk : Toolkit) (s : State) (evs : List Event)
    (h : Event.enableSuggest ∉ evs ∨ ∀ e ∈ evs, isTextEdit e = false) :
    queries (run tk (preventSuggest s) evs) = queries s := by
  have hq : queries (preventSuggest s) = queries s := rfl
  rcases h with h | h
  · rw [run_paused tk evs _ rfl h, hq]
  · rw [run_timer_off tk evs _ rfl h, hq]

/-- Claim C3, amended, at a sample sequence: an edit and a timer expiry while
paused issue no query. -/
theorem no_query_until_resumed_and_edited_witness :
    (Event.enableSuggest ∉ [Event.textEdited "cat", Event.timeout] ∨
      ∀ e ∈ [Event.textEdited "cat", Event.timeout], isTextEdit e = false) ∧
    queries (run tk0 (preventSuggest (setSuggester s0 0))
      [Event.textEdited "cat", Event.timeout]) = queries (setSuggester s0 0) :=
  ⟨Or.inl (by decide),
    no_query_until_resumed_and_edited tk0 (setSuggester s0 0)
      [Event.textEdited "cat", Event.timeout] (Or.inl (by decide))⟩

/-- Claim C4. `suggest()`: an outward call is made exactly when the controller
is enabled, the field text is non-empty and a provider is attached; it is then
one query, to that provider, carrying the field text, which is also stored as
original text, and the popup keeps its visibility.  With the controller
enabled and the field empty nothing is issued and the popup ends hidden.  With
the controller disabled the state is unchanged. -/
theorem suggest_spec (s : State) :
    ((suggest s).signals ≠ s.signals ↔
      (s.enabled = true ∧ s.buddy.text ≠ "" ∧ s.suggester.isSome = true)) ∧
    (∀ p, s.enabled = true → s.buddy.text ≠ "" → s.suggester = some p →
      (suggest s).signals = s.signals ++ [Signal.suggest p s.buddy.text] ∧
      queries (suggest s) = queries s ++ [(p, s.buddy.text)] ∧
      (suggest s).originalText = s.buddy.text ∧
      (suggest s).buddy.text = s.buddy.text ∧
      (suggest s).popup.hidden = s.popup.hidden) ∧
    (s.enabled = true → s.buddy.text = "" →
      (suggest s).signals = s.signals ∧ (suggest s).popup.hidden = true) ∧
    (s.enabled = false → suggest s = s) := by
  refine ⟨?_, ?_, ?_, ?_⟩
  · cases he : s.enabled
    · simp [suggest, he]
    · by_cases ht : s.buddy.text = ""
      · simp [suggest, he, ht, setCurrentItem, currentItemChanged, Popup.currentItem, hideSuggestions, setText,
          setFocus, timerStop, Popup.hide, Popup.clear, Popup.clearSelection]
      · cases hs : s.suggester <;>
        simp [suggest, he, ht, hs, setCurrentItem, currentItemChanged, Popup.currentItem, Popup.clearSelection]
  · intro p he ht hs
    simp [suggest, he, ht, hs, setCurrentItem, currentItemChanged, Popup.currentItem, Popup.clearSelection, queries]
  · intro he ht
    simp [suggest, he, ht, setCurrentItem, currentItemChanged, Popup.currentItem, hideSuggestions, setText,
      setFocus, timerStop, Popup.hide, Popup.clear, Popup.clearSelection]
  · intro he
    simp [suggest, he]

/-- Claim C4 at sample states: a typed "a" with a provider attached, the empty
field of `s0`, and a paused controller. -/
theorem suggest_spec_witness :
    (sTyping.enabled = true ∧ sTyping.buddy.text ≠ "" ∧
      (setSuggester sTyping 0).suggester = some 0) ∧
    (suggest (setSuggester sTyping 0)).signals = [Signal.suggest 0 "a"] ∧
    (suggest (setSuggester sTyping 0)).originalText = "a" ∧
    (s0.enabled = true ∧ s0.buddy.text = "") ∧
    ((suggest s0).signals = s0.signals ∧ (suggest s0).popup.hidden = true) ∧
    (preventSuggest sTyping).enabled = false ∧
    suggest (preventSuggest sTyping) = preventSuggest sTyping :=
  ⟨⟨by decide, by decide, by decide⟩,
    ((suggest_spec (setSuggester sTyping 0)).2.1 0 (by decide) (by decide) (by decide)).1,
    ((suggest_spec (setSuggester sTyping 0)).2.1 0 (by decide) (by decide) (by decide)).2.2.1,
    ⟨by decide, by decide⟩,
    (suggest_spec s0).2.2.1 (by decide) (by decide),
    by decide,
    (suggest_spec (preventSuggest sTyping)).2.2.2 (by decide)⟩

/-- Claim C5 fails on the code. In `sReopened` the user has typed "ca", the
popup has been closed once with Escape and a later reply has opened it again,
so original text is empty.  Moving to row 0 previews "car" into the field;
Escape is consumed and hides the popup, but the field keeps "car" instead of
going back to "ca". -/
theorem escape_after_late_reply :
    sReopened.popup.hidden = false ∧ sReopened.buddy.text = "ca" ∧
    (step tk0 sReopened (Event.currentRow 0)).popup.current = some 0 ∧
    (step tk0 sReopened (Event.currentRow 0)).buddy.text = "car" ∧
    (eventFilter (step tk0 sReopened (Event.currentRow 0)) Obj.popup
      (QEvent.KeyPress Key.Key_Escape none)).2 = true ∧
    (eventFilter (step tk0 sReopened (Event.currentRow 0)) Obj.popup
      (QEvent.KeyPress Key.Key_Escape none)).1.popup.hidden = true ∧
    (eventFilter (step tk0 sReopened (Event.currentRow 0)) Obj.popup
      (QEvent.KeyPress Key.Key_Escape none)).1.buddy.text = "car" := by
  decide

/-- Claim C6 fails as stated: in `sTyping` the popup is hidden, no original text
is pending and the debounce timer runs; `hideSuggestions()` stops the timer. -/
theorem hideSuggestions_stops_timer_counterexample :
    sTyping.popup.hidden = true ∧ sTyping.originalText = "" ∧
    sTyping.timerActive = true ∧ (hideSuggestions sTyping).timerActive = false ∧
    hideSuggestions sTyping ≠ sTyping := by
  decide

/-- Claim C6, amended. On a hidden popup `hideSuggestions()` keeps the popup
hidden and keeps the enabled flag, the provider, the stored batch, the popup
geometry, the pending hover shots and the log; it clears the rows, the
highlight and the selection, disarms hovering, gives the field focus, stops
the debounce timer, and writes a pending original text back into the field
and clears it.  So, the restore of original text apart, the state is unchanged
exactly when the popup had no rows, highlight or selection, the timer was
stopped, hovering was disarmed and the field had focus. -/
theorem hideSuggestions_hidden (s : State) (h : s.popup.hidden = true) :
    hideSuggestions s =
      { s with
        itemHovering := false
        popup := { s.popup with items := [], current := none, selected := none }
        buddy := { s.buddy with
          text := if s.originalText ≠ "" then s.originalText else s.buddy.text
          hasFocus := true }
        originalText := ""
        timerActive := false } ∧
    (hideSuggestions s =
        { s with
          buddy := { s.buddy with
            text := if s.originalText ≠ "" then s.originalText else s.buddy.text }
          originalText := "" } ↔
      (s.popup.items = [] ∧ s.popup.current = none ∧ s.popup.selected = none ∧
        s.timerActive = false ∧ s.itemHovering = false ∧ s.buddy.hasFocus = true)) := by
  obtain ⟨en, su, ih, ot, sg, ⟨ph, pi, pc, ps, pz, pp⟩, ⟨bt, bf, bv, bw, bh, bg⟩, ta, hs, si⟩ := s
  simp only at h
  subst h
  by_cases ho : ot = ""
  · subst ho
    simp [hideSuggestions, setText, setFocus, timerStop, Popup.hide, Popup.clear]
    constructor
    · rintro ⟨a, ⟨b, c, d⟩, e, f⟩
      exact ⟨b, c.symm, d.symm, f, a, e⟩
    · rintro ⟨b, c, d, f, a, e⟩
      exact ⟨a, ⟨b, c.symm, d.symm⟩, e, f⟩
  · simp [hideSuggestions, setText, setFocus, timerStop, Popup.hide, Popup.clear, ho]
    constructor
    · rintro ⟨a, ⟨b, c, d⟩, e, f⟩
      exact ⟨b, c.symm, d.symm, f, a, e⟩
    · rintro ⟨b, c, d, f, a, e⟩
      exact ⟨a, ⟨b, c.symm, d.symm⟩, e, f⟩

/-- Claim C6, amended, at `sTyping`: the only change is that the timer is
stopped. -/
theorem hideSuggestions_hidden_witness :
    sTyping.popup.hidden = true ∧
    hideSuggestions sTyping = { sTyping with timerActive := false } :=
  ⟨by decide, (hideSuggestions_hidden sTyping (by decide)).1⟩

/-- Claim C7. Up on the popup with row 0 highlighted: highlight and selection
are cleared, the field takes the stored original text and gets focus, the key
is consumed, and nothing else changes.  With any other highlight, or none, the
key is not consumed and the state is unchanged. -/
theorem eventFilter_up_spec (s : State) (edit : Option String) :
    (s.popup.hidden = false → s.popup.current = some 0 →
      eventFilter s Obj.popup (QEvent.KeyPress Key.Key_Up edit) =
        ({ s with
            popup := { s.popup with current := none, selected := none }
            buddy := { s.buddy with text := s.originalText, hasFocus := true } }, true)) ∧
    (s.popup.current ≠ some 0 →
      eventFilter s Obj.popup (QEvent.KeyPress Key.Key_Up edit) = (s, false)) := by
  constructor
  · intro _ hc
    simp [eventFilter, Popup.currentRow, hc, setCurrentItem, currentItemChanged, Popup.currentItem,
      Popup.clearSelection, setText, setFocus]
  · intro hc
    have : s.popup.currentRow ≠ 0 := by
      unfold Popup.currentRow
      cases h : s.popup.current with
      | none => simp
      | some i =>
        simp only [h] at hc
        simp
        intro h0
        exact hc (by rw [h0])
    simp [eventFilter, this]

/-- Claim C7 at sample states: row 0 highlighted in `sPreview` (original text
"cat"), and no highlight in `s0`. -/
theorem eventFilter_up_spec_witness :
    (sPreview.popup.hidden = false ∧ sPreview.popup.current = some 0) ∧
    eventFilter sPreview Obj.popup (QEvent.KeyPress Key.Key_Up none) =
      ({ sPreview with
          popup := { sPreview.popup with current := none, selected := none }
          buddy := { sPreview.buddy with text := "cat", hasFocus := true } }, true) ∧
    s0.popup.current ≠ some 0 ∧
    eventFilter s0 Obj.popup (QEvent.KeyPress Key.Key_Up none) = (s0, false) :=
  ⟨⟨by decide, by decide⟩,
    (eventFilter_up_spec sPreview none).1 (by decide) (by decide),
    by decide, (eventFilter_up_spec s0 none).2 (by decide)⟩

/-- Claim C8. `showSuggestions(batch)` for a non-empty batch: the popup is
visible, has as many rows as the batch, their texts are the values in batch
order, a row has an icon exactly when its suggestion has a non-empty type, and
no row is highlighted.  The popup height is twice the frame width plus the
sum of the row height hints, computed in `int`: it is that sum wrapped to 32
bits, and so the sum itself whenever the sum is within the range of `int`.
For the empty batch the result is that of `hideSuggestions()`: the popup is
hidden and has no rows and no highlighted row. -/
theorem showSuggestions_spec (tk : Toolkit) (s : State) (batch : List Suggestion) :
    (batch ≠ [] →
      (showSuggestions tk s batch).popup.hidden = false ∧
      (showSuggestions tk s batch).popup.items.length = batch.length ∧
      (showSuggestions tk s batch).popup.items.map Item.text = batch.map Suggestion.value ∧
      (∀ (i : Nat) (it : Item) (sg : Suggestion),
        (showSuggestions tk s batch).popup.items[i]? = some it →
        batch[i]? = some sg → (it.icon.isSome = true ↔ sg.type ≠ "")) ∧
      (showSuggestions tk s batch).popup.current = none ∧
      (showSuggestions tk s batch).popup.size.2 =
        wrapInt (2 * tk.frameWidth +
          ((List.range batch.length).map
            (tk.sizeHintForRow (showSuggestions tk s batch).popup.items)).sum) ∧
      (-2147483648 ≤ 2 * tk.frameWidth +
          ((List.range batch.length).map
            (tk.sizeHintForRow (showSuggestions tk s batch).popup.items)).sum →
        2 * tk.frameWidth +
          ((List.range batch.length).map
            (tk.sizeHintForRow (showSuggestions tk s batch).popup.items)).sum ≤ 2147483647 →
        (showSuggestions tk s batch).popup.size.2 =
          2 * tk.frameWidth +
            ((List.range batch.length).map
              (tk.sizeHintForRow (showSuggestions tk s batch).popup.items)).sum)) ∧
    (showSuggestions tk s [] = hideSuggestions s ∧
      (showSuggestions tk s []).popup.hidden = true ∧
      (showSuggestions tk s []).popup.items = [] ∧
      (showSuggestions tk s []).popup.current = none) := by
  constructor
  · intro h
    rw [showSuggestions_popup tk s batch h]
    refine ⟨rfl, by simp, ?_, ?_, rfl, ?_, ?_⟩
    · simp [mkItem, Function.comp_def]
    · intro i it sg hit hsg
      rw [List.getElem?_map, hsg] at hit
      cases hit
      by_cases ht : sg.type = "" <;> simp [mkItem, ht]
    · simp [mul_comm]
    · intro h₁ h₂
      simp only [mul_comm 2 tk.frameWidth] at h₁ h₂ ⊢
      exact wrapInt_of_range _ h₁ h₂
  · refine ⟨by simp [showSuggestions], ?_, ?_, ?_⟩ <;>
      simp [showSuggestions, hideSuggestions, setText, setFocus, timerStop, Popup.hide,
        Popup.clear] <;>
      split <;> rfl

/-- Claim C8 at sample data.  The batch of the scenario gives two rows, "cats"
with an icon and "category" without, and the height `2 * 1 + (30 + 30)`, which
is within the range of `int`.  The empty batch closes the popup that
`sPreview` shows with two rows. -/
theorem showSuggestions_spec_witness :
    (batchCat ≠ [] ∧
      (-2147483648 : Int) ≤ 2 * tk0.frameWidth +
        ((List.range batchCat.length).map
          (tk0.sizeHintForRow (showSuggestions tk0 s0 batchCat).popup.items)).sum ∧
      2 * tk0.frameWidth +
        ((List.range batchCat.length).map
          (tk0.sizeHintForRow (showSuggestions tk0 s0 batchCat).popup.items)).sum ≤
          2147483647) ∧
    (showSuggestions tk0 s0 batchCat).popup.hidden = false ∧
    (showSuggestions tk0 s0 batchCat).popup.items.length = 2 ∧
    (showSuggestions tk0 s0 batchCat).popup.items.map Item.text = ["cats", "category"] ∧
    ((showSuggestions tk0 s0 batchCat).popup.items.map fun it => it.icon.isSome) =
      [true, false] ∧
    (showSuggestions tk0 s0 batchCat).popup.current = none ∧
    (showSuggestions tk0 s0 batchCat).popup.size.2 = 2 * 1 + (30 + 30) ∧
    (sPreview.popup.hidden = false ∧ sPreview.popup.items.length = 2 ∧
      sPreview.popup.current = some 0) ∧
    (showSuggestions tk0 sPreview []).popup.hidden = true ∧
    (showSuggestions tk0 sPreview []).popup.items = [] ∧
    (showSuggestions tk0 sPreview []).popup.current = none :=
  ⟨⟨by decide, by decide, by decide⟩,
    ((showSuggestions_spec tk0 s0 batchCat).1 (by decide)).1,
    ((showSuggestions_spec tk0 s0 batchCat).1 (by decide)).2.1,
    ((showSuggestions_spec tk0 s0 batchCat).1 (by decide)).2.2.1,
    by decide,
    ((showSuggestions_spec tk0 s0 batchCat).1 (by decide)).2.2.2.2.1,
    ((showSuggestions_spec tk0 s0 batchCat).1 (by decide)).2.2.2.2.2.2 (by decide) (by decide),
    ⟨by decide, by decide, by decide⟩,
    (showSuggestions_spec tk0 sPreview []).2.2.1,
    (showSuggestions_spec tk0 sPreview []).2.2.2.1,
    (showSuggestions_spec tk0 sPreview []).2.2.2.2⟩

/-- Claim C9 fails as stated: in `sQueried` original text is "cat" while the
popup is hidden and has neither rows nor a highlighted row, so nothing is
previewed. -/
theorem originalText_without_preview_counterexample :
    sQueried.originalText = "cat" ∧ sQueried.popup.hidden = true ∧
    sQueried.popup.items = [] ∧ sQueried.popup.current = none ∧
    sQueried.buddy.text = "cat" := by
  decide

/-- Claim C9, amended. In a state reached from the initial state, a non-empty
original text was captured by `suggest()`: an earlier timer expiry found the
timer running and the controller enabled, the field then held exactly this
text, and original text has had this value ever since.  It is empty after
`acceptSuggestion()` with the highlighted row within the stored batch and
after `hideSuggestions()`. -/
theorem originalText_invariant (tk : Toolkit) (b : Buddy) (sz ps : Int × Int) :
    (∀ evs : List Event, (run tk (init b sz ps) evs).originalText ≠ "" →
      ∃ pre post, evs = pre ++ Event.timeout :: post ∧
        (run tk (init b sz ps) pre).timerActive = true ∧
        (run tk (init b sz ps) pre).enabled = true ∧
        (run tk (init b sz ps) pre).buddy.text = (run tk (init b sz ps) evs).originalText ∧
        ∀ mid, mid <+: post →
          (run tk (init b sz ps) (pre ++ Event.timeout :: mid)).originalText =
            (run tk (init b sz ps) evs).originalText) ∧
    (∀ s : State, 0 ≤ s.popup.currentRow →
      s.popup.currentRow < (s.suggestions.length : Int) →
      (acceptSuggestion s).originalText = "") ∧
    (∀ s : State, (hideSuggestions s).originalText = "") := by
  refine ⟨fun evs h => run_originalText tk _ rfl evs h, ?_, ?_⟩
  · intro s h0 h1
    simp only [acceptSuggestion]
    rw [dif_pos ⟨h0, h1⟩]
    simp [hideSuggestions, setText, setFocus, timerStop]
  · intro s
    by_cases ho : s.originalText = "" <;>
      simp [hideSuggestions, setText, setFocus, timerStop, ho]

/-- Claim C9, amended, at sample data: the sequence leading to `sQueried`, and
`acceptSuggestion()` in `sPreview`. -/
theorem originalText_invariant_witness :
    (run tk0 (init buddy0 (0, 0) (0, 0))
      [Event.setSuggester 0, Event.textEdited "cat", Event.timeout]).originalText ≠ "" ∧
    (∃ pre post,
      [Event.setSuggester 0, Event.textEdited "cat", Event.timeout] =
        pre ++ Event.timeout :: post ∧
      (run tk0 (init buddy0 (0, 0) (0, 0)) pre).timerActive = true ∧
      (run tk0 (init buddy0 (0, 0) (0, 0)) pre).enabled = true ∧
      (run tk0 (init buddy0 (0, 0) (0, 0)) pre).buddy.text =
        (run tk0 (init buddy0 (0, 0) (0, 0))
          [Event.setSuggester 0, Event.textEdited "cat", Event.timeout]).originalText ∧
      ∀ mid, mid <+: post →
        (run tk0 (init buddy0 (0, 0) (0, 0)) (pre ++ Event.timeout :: mid)).originalText =
          (run tk0 (init buddy0 (0, 0) (0, 0))
            [Event.setSuggester 0, Event.textEdited "cat", Event.timeout]).originalText) ∧
    ((0 : Int) ≤ sPreview.popup.currentRow ∧
      sPreview.popup.currentRow < (sPreview.suggestions.length : Int)) ∧
    (acceptSuggestion sPreview).originalText = "" :=
  ⟨by decide,
    (originalText_invariant tk0 buddy0 (0, 0) (0, 0)).1 _ (by decide),
    ⟨by decide, by decide⟩,
    (originalText_invariant tk0 buddy0 (0, 0) (0, 0)).2.1 sPreview (by decide) (by decide)⟩

/-- Claim C10 fails on the code. In `sStale` the popup is visible and its
highlighted row 1 shows "category", but the stored batch, replaced by a reply
whose display was suppressed, holds "carpet" at index 1; Enter then commits
"carpet".  In `sStalePaused` the reply arrived while the controller was
paused: the hidden popup keeps row 1 "category" highlighted over the same
stored batch. -/
theorem accept_after_suppressed_reply :
    (sStale.popup.hidden = false ∧ sStale.popup.current = some 1 ∧
      (sStale.popup.items.map Item.text)[1]? = some "category" ∧
      (sStale.suggestions.map Suggestion.value)[1]? = some "carpet") ∧
    ((eventFilter sStale Obj.popup (QEvent.KeyPress Key.Key_Enter none)).1.buddy.text =
        "carpet" ∧
      (eventFilter sStale Obj.popup (QEvent.KeyPress Key.Key_Enter none)).1.signals =
        sStale.signals ++
          [Signal.suggestionAccepted { value := "carpet", type := "video" },
            Signal.suggestionAcceptedText "carpet"]) ∧
    (sStalePaused.popup.current = some 1 ∧
      (sStalePaused.popup.items.map Item.text)[1]? = some "category" ∧
      (sStalePaused.suggestions.map Suggestion.value)[1]? = some "carpet") := by
  decide

end AutoComplete
